import Mathlib

/-!
Shallow embedding of `apps/studio/src/lib/projects/create.ts` (the
`CreateManager` class of the onlook studio app).

The class is a small UI-facing state machine.  We model its mutable fields,
the owning `ProjectsManager`'s fields it touches, the pending `setTimeout`
callbacks (as a list of timer entries with fresh numeric ids), and the
progress-notification subscription, as one Lean structure.  Each method of
the class becomes a pure function on that structure; the single `await`
suspension point inside `sendPrompt` is modelled by splitting the method
into `sendPromptStart` (everything before the backend call) and
`sendPromptResume` (everything after, parameterised by the backend's
response).  An `Event` type and `applyEvent` step function give the
reachable-state relation used for invariants.
-/

/-- The `CreateState` enum of the source (string values elided). -/
inductive CreateState where
  | PROMPT
  | IMPORT
  | CREATE_LOADING
  | ERROR
deriving DecidableEq, Repr

/-- One entry of the `SLOW_CREATE_MESSAGES` table: a delay in milliseconds
and a canned message. -/
structure SlowCreateMessage where
  time : Nat
  message : String
deriving DecidableEq, Repr

/-- The `SLOW_CREATE_MESSAGES` constant of the source. -/
def SLOW_CREATE_MESSAGES : List SlowCreateMessage :=
  [⟨15000, "Finalizing layout..."⟩,
   ⟨30000, "Drafting copy..."⟩,
   ⟨45000, "Finalizing design..."⟩,
   ⟨60000, "Completing setup..."⟩,
   ⟨75000, "Starting project..."⟩]

/-- Modelled from the spec: the `ProjectTabs` enum lives in
`apps/studio/src/lib/projects/index.ts`, which is not part of the given
sources; the spec only says the success path switches the active tab to the
"projects" view, so we model the enum with the referenced `PROJECTS` value
plus one other value standing for any other tab. -/
inductive ProjectTabs where
  | PROJECTS
  | SETTINGS
deriving DecidableEq, Repr

/-- Modelled from the spec: `ImageMessageContext` (from `@onlook/models/chat`)
is an opaque image-attachment payload that `CreateManager` only forwards
unchanged; we model it as an opaque wrapper around its serialized data. -/
structure ImageMessageContext where
  data : String
deriving DecidableEq, Repr

/-- The fixed command set built by `CreateManager.createProject`. -/
structure ProjectCommands where
  install : String
  run : String
  build : String
deriving DecidableEq, Repr

/-- Modelled from the spec: the project record produced by the
`ProjectsManager.createProject` factory (spec section 6:
`create project(name, url, path, commands)`); the factory itself lives in
`apps/studio/src/lib/projects/index.ts`, outside the given sources, so the
record is modelled as holding exactly the four arguments it is given. -/
structure Project where
  name : String
  url : String
  path : String
  commands : ProjectCommands
deriving DecidableEq, Repr

/-- Modelled from the spec: `ProjectsManager.createProject(name, url, path,
commands)` is the project-record factory the spec lists as an external
collaborator; it binds the four arguments into a project record. -/
def ProjectsManager.createProject (name url path : String)
    (commands : ProjectCommands) : Project :=
  ⟨name, url, path, commands⟩

/-- The payload inside a successful `CreateProjectResponse`
(`result.response` in the source): a project path and optional generated
content.  A missing path is modelled as the empty string, which is exactly
how the source's truthiness test treats it. -/
structure CreateProjectResponsePayload where
  projectPath : String
  content : Option String
deriving DecidableEq, Repr

/-- The `CreateProjectResponse` shape consumed by `sendPrompt`:
`{success, response?, error?}`. -/
structure CreateProjectResponse where
  success : Bool
  response : Option CreateProjectResponsePayload
  error : Option String
deriving DecidableEq, Repr

/-- JS truthiness of `result.response?.projectPath`: the optional chain is
falsy when `response` is absent, and an empty path string is falsy too. -/
def CreateProjectResponse.pathTruthy (r : CreateProjectResponse) : Bool :=
  match r.response with
  | none => false
  | some payload => !payload.projectPath.isEmpty

/-- The project path read in the success branch
(`result.response.projectPath`); only used under `pathTruthy`. -/
def CreateProjectResponse.path (r : CreateProjectResponse) : String :=
  match r.response with
  | none => ""
  | some payload => payload.projectPath

/-- JS truthiness of `result.response?.content`. -/
def CreateProjectResponse.contentTruthy (r : CreateProjectResponse) : Bool :=
  match r.response with
  | none => false
  | some payload =>
    match payload.content with
    | none => false
    | some c => !c.isEmpty

/-- The content read in the suggestions branch. -/
def CreateProjectResponse.contentValue (r : CreateProjectResponse) : String :=
  match r.response with
  | none => ""
  | some payload => payload.content.getD ""

/-- `result.error || 'Failed to create project'`: JS `||` falls back on any
falsy value, so both an absent error and an empty error string yield the
generic message. -/
def CreateProjectResponse.errorOrFallback (r : CreateProjectResponse) : String :=
  match r.error with
  | none => "Failed to create project"
  | some e => if e.isEmpty then "Failed to create project" else e

/-- The kinds of callback handed to `setTimeout` by the source:
the five self-guarding slow-create messages, the no-op guard timer whose
handle is kept in `slowConnectionTimer`, the 100 ms tab switch, and the
1000 ms dev-server start. -/
inductive TimerKind where
  | slowMessage (message : String)
  | guard
  | tabSwitch
  | runnerStart
deriving DecidableEq, Repr

/-- A pending `setTimeout` callback: its numeric handle, its callback kind,
and its delay in milliseconds. -/
structure TimerEntry where
  id : Nat
  kind : TimerKind
  delay : Nat
deriving DecidableEq, Repr

/-- The analytics events emitted through `sendAnalytics` (an external sink;
we record the calls). -/
inductive AnalyticsEvent where
  | promptCreateProject (prompt : String) (blank : Bool)
  | promptCreateProjectSuccess
  | promptCreateProjectError (error : String)
deriving DecidableEq, Repr

/-- The state of one `CreateManager` instance together with the fields of
its owning `ProjectsManager` that it mutates, the pending timers, and the
progress-notification subscription. -/
structure CreateManager where
  /-- Backing field `createState` of the `state` getter/setter. -/
  createState : CreateState
  /-- `progress` (a JS number; the class only assigns incoming numbers and
  adds 10, so we model it as an integer). -/
  progress : Int
  /-- `message` (nullable). -/
  message : Option String
  /-- `error` (nullable). -/
  error : Option String
  /-- Whether `cleanupListener` is non-null. -/
  cleanupListener : Bool
  /-- Whether the `window.api` listener on the progress channel is attached. -/
  subscribed : Bool
  /-- The `slowConnectionTimer` handle (a timer id, or null). -/
  slowConnectionTimer : Option Nat
  /-- All scheduled, not-yet-fired, not-cleared `setTimeout` callbacks. -/
  pending : List TimerEntry
  /-- Fresh-id counter for timer handles. -/
  nextTimerId : Nat
  /-- `projectsManager.project` (the active project). -/
  project : Option Project
  /-- `projectsManager.projectsTab`. -/
  projectsTab : ProjectTabs
  /-- Calls forwarded to `chat.suggestions.generateCreatedSuggestions`
  (fire-and-forget; we record the arguments). -/
  suggestions : List (String × String × List ImageMessageContext)
  /-- Events sent to the analytics sink. -/
  analytics : List AnalyticsEvent
deriving DecidableEq, Repr

/-- `setTimeout(cb, delay)`: schedule a callback under a fresh handle and
return the handle. -/
def setTimeoutOp (m : CreateManager) (k : TimerKind) (delay : Nat) :
    CreateManager × Nat :=
  ({ m with
      pending := m.pending ++ [⟨m.nextTimerId, k, delay⟩],
      nextTimerId := m.nextTimerId + 1 },
   m.nextTimerId)

/-- `clearTimeout(handle)`: drop the pending callback with that handle. -/
def clearTimeoutOp (m : CreateManager) (id : Nat) : CreateManager :=
  { m with pending := m.pending.filter (fun t => t.id ≠ id) }

/-- `startSlowConnectionTimer`: clear a previous guard timer if any, schedule
the five slow-create messages at their listed delays, and store a fresh
no-op guard timer (delay = the maximum listed delay) in
`slowConnectionTimer`. -/
def CreateManager.startSlowConnectionTimer (m : CreateManager) : CreateManager :=
  let m :=
    match m.slowConnectionTimer with
    | some id => clearTimeoutOp m id
    | none => m
  let m := SLOW_CREATE_MESSAGES.foldl
    (fun acc e => (setTimeoutOp acc (.slowMessage e.message) e.time).1) m
  let p := setTimeoutOp m .guard
    ((SLOW_CREATE_MESSAGES.map (·.time)).foldl Nat.max 0)
  { p.1 with slowConnectionTimer := some p.2 }

/-- `clearSlowConnectionTimer`: clear the guard timer and null its handle. -/
def CreateManager.clearSlowConnectionTimer (m : CreateManager) : CreateManager :=
  match m.slowConnectionTimer with
  | some id => { clearTimeoutOp m id with slowConnectionTimer := none }
  | none => m

/-- `listenForPromptProgress`: attach the progress listener and store a
cleanup closure for it. -/
def CreateManager.listenForPromptProgress (m : CreateManager) : CreateManager :=
  { m with subscribed := true, cleanupListener := true }

/-- The handler registered on the `CREATE_NEW_PROJECT_PROMPT_CALLBACK`
channel: unconditionally overwrite `progress` and `message`. -/
def CreateManager.promptProgressHandler (m : CreateManager)
    (message : String) (progress : Int) : CreateManager :=
  { m with progress := progress, message := some message }

/-- Delivery of a progress notification on the channel: the handler runs
exactly when the listener is attached. -/
def CreateManager.deliverPromptProgress (m : CreateManager)
    (message : String) (progress : Int) : CreateManager :=
  if m.subscribed then m.promptProgressHandler message progress else m

/-- The `state` setter: assign `createState`, then (re)start the slow timers
when entering `CREATE_LOADING` and clear them when entering anything else. -/
def CreateManager.setState (m : CreateManager) (newState : CreateState) :
    CreateManager :=
  let m := { m with createState := newState }
  if newState = CreateState.CREATE_LOADING then
    m.startSlowConnectionTimer
  else
    m.clearSlowConnectionTimer

/-- `CreateManager.createProject(projectPath)`: build the project record
with the fixed defaults through the owner's factory. -/
def CreateManager.createProject (projectPath : String) : Project :=
  ProjectsManager.createProject "New Project" "http://localhost:3000"
    projectPath ⟨"npm install", "npm run dev", "npm run build"⟩

/-- The part of `sendPrompt` before the `await` of the backend request:
send the attempt analytics event, set the state to `CREATE_LOADING`
(through the setter, restarting the slow timers), and clear `error`. -/
def CreateManager.sendPromptStart (m : CreateManager)
    (prompt : String) (blank : Bool) : CreateManager :=
  let m := { m with
    analytics := m.analytics ++ [AnalyticsEvent.promptCreateProject prompt blank] }
  let m := m.setState CreateState.CREATE_LOADING
  { m with error := none }

/-- The part of `sendPrompt` after the backend's response arrives. -/
def CreateManager.sendPromptResume (m : CreateManager) (prompt : String)
    (images : List ImageMessageContext) (blank : Bool)
    (result : CreateProjectResponse) : CreateManager :=
  if result.success && result.pathTruthy then
    let m := m.setState CreateState.PROMPT
    let newProject := CreateManager.createProject result.path
    let m := { m with project := some newProject }
    let m := (setTimeoutOp m .tabSwitch 100).1
    let m :=
      if !blank && result.contentTruthy then
        { m with suggestions :=
            m.suggestions ++ [(prompt, result.contentValue, images)] }
      else m
    let m := m.clearSlowConnectionTimer
    let m := (setTimeoutOp m .runnerStart 1000).1
    { m with analytics := m.analytics ++ [AnalyticsEvent.promptCreateProjectSuccess] }
  else
    let errMsg := result.errorOrFallback
    let m := { m with error := some errMsg }
    let m := m.setState CreateState.ERROR
    { m with analytics := m.analytics ++ [AnalyticsEvent.promptCreateProjectError errMsg] }

/-- A full `sendPrompt(prompt, images, blank)` call resolving with the given
backend response. -/
def CreateManager.sendPrompt (m : CreateManager) (prompt : String)
    (images : List ImageMessageContext) (blank : Bool)
    (result : CreateProjectResponse) : CreateManager :=
  (m.sendPromptStart prompt blank).sendPromptResume prompt images blank result

/-- `cancel()`: issue the cancellation request to the backend (whose
response, `backendResponse`, is awaited but discarded — the method never
fails on its account) and set the state back to `PROMPT`. -/
def CreateManager.cancel (m : CreateManager)
    (backendResponse : Option String) : CreateManager :=
  let _ := backendResponse
  m.setState CreateState.PROMPT

/-- `cleanup()`: run and null the listener-cleanup closure if present, then
clear the guard timer. -/
def CreateManager.cleanup (m : CreateManager) : CreateManager :=
  let m :=
    if m.cleanupListener then
      { m with subscribed := false, cleanupListener := false }
    else m
  m.clearSlowConnectionTimer

/-- Run the callback of a fired timer.  The slow-message callbacks
self-guard on the current state; the guard timer is a no-op; the two
success-path delays switch the tab and (externally) start the dev server. -/
def CreateManager.runTimerCallback (m : CreateManager) (k : TimerKind) :
    CreateManager :=
  match k with
  | .slowMessage msg =>
    if m.createState = CreateState.CREATE_LOADING then
      { m with message := some msg, progress := m.progress + 10 }
    else m
  | .guard => m
  | .tabSwitch => { m with projectsTab := ProjectTabs.PROJECTS }
  | .runnerStart => m

/-- The event loop firing the pending timer with the given handle (a no-op
if that timer was cleared or never existed). -/
def CreateManager.fireTimer (m : CreateManager) (id : Nat) : CreateManager :=
  match m.pending.find? (fun t => t.id = id) with
  | some t =>
    CreateManager.runTimerCallback
      { m with pending := m.pending.filter (fun x => x.id ≠ id) } t.kind
  | none => m

/-- The constructor: default field values, then `listenForPromptProgress()`.
The owner's initial `project` and `projectsTab` are parameters (they live in
the `ProjectsManager`, outside this class). -/
def CreateManager.initialState (project : Option Project)
    (projectsTab : ProjectTabs) : CreateManager :=
  CreateManager.listenForPromptProgress
    { createState := CreateState.PROMPT
      progress := 0
      message := none
      error := none
      cleanupListener := false
      subscribed := false
      slowConnectionTimer := none
      pending := []
      nextTimerId := 0
      project := project
      projectsTab := projectsTab
      suggestions := []
      analytics := [] }

/-- The public operations and environment events that can hit a
`CreateManager`. -/
inductive Event where
  | sendPromptStart (prompt : String) (blank : Bool)
  | sendPromptResume (prompt : String) (images : List ImageMessageContext)
      (blank : Bool) (result : CreateProjectResponse)
  | cancel (backendResponse : Option String)
  | cleanup
  | progressNotify (message : String) (progress : Int)
  | timerFire (id : Nat)

/-- One step of the event loop. -/
def applyEvent (m : CreateManager) : Event → CreateManager
  | .sendPromptStart prompt blank => m.sendPromptStart prompt blank
  | .sendPromptResume prompt images blank result =>
    m.sendPromptResume prompt images blank result
  | .cancel backendResponse => m.cancel backendResponse
  | .cleanup => m.cleanup
  | .progressNotify message progress => m.deliverPromptProgress message progress
  | .timerFire id => m.fireTimer id

/-- States reachable from a freshly constructed manager by any event
sequence (the resume events are not even required to pair with a start, so
this over-approximates the real traces). -/
inductive Reachable (project0 : Option Project) (tab0 : ProjectTabs) :
    CreateManager → Prop where
  | init : Reachable project0 tab0 (CreateManager.initialState project0 tab0)
  | step {m : CreateManager} (e : Event) :
      Reachable project0 tab0 m → Reachable project0 tab0 (applyEvent m e)

/-- The invariant behind the amended C3: whenever the state is
`CREATE_LOADING`, `error` is null. -/
def ErrorInv (m : CreateManager) : Prop :=
  m.createState = CreateState.CREATE_LOADING → m.error = none

/-! ### Concrete states and responses used by witnesses and counterexamples -/

/-- A freshly constructed manager (owner starts with no project, on some
non-projects tab). -/
def exampleManager : CreateManager :=
  CreateManager.initialState none ProjectTabs.SETTINGS

/-- A successful backend response carrying the non-empty path `/p`. -/
def exampleSuccessResponse : CreateProjectResponse :=
  ⟨true, some ⟨"/p", none⟩, none⟩

/-- A failed backend response with the error string `disk full`. -/
def exampleFailResponse : CreateProjectResponse :=
  ⟨false, none, some "disk full"⟩

/-- A failed backend response whose error field is the empty string. -/
def exampleEmptyErrorResponse : CreateProjectResponse :=
  ⟨false, none, some ""⟩

/-- The manager right after `sendPrompt` was entered (state `CREATE_LOADING`,
slow timers scheduled), before the backend has answered. -/
def exampleLoadingState : CreateManager :=
  applyEvent exampleManager (Event.sendPromptStart "x" false)

/-- The trace refuting C3: a failed `sendPrompt` (leaving
`error = some "disk full"`) followed by `cancel()`. -/
def exampleCancelAfterErrorState : CreateManager :=
  applyEvent
    (applyEvent (applyEvent exampleManager (Event.sendPromptStart "x" false))
      (Event.sendPromptResume "x" [] false exampleFailResponse))
    (Event.cancel none)

/-- The trace refuting C6: enter `CREATE_LOADING` (scheduling the five
slow-message timers and the guard timer), then call `cleanup()` twice. -/
def exampleCleanupTwiceState : CreateManager :=
  exampleLoadingState.cleanup.cleanup

/-! ### Helper lemmas: explicit forms and field projections of the operations -/

theorem startSlowConnectionTimer_eq (m : CreateManager) :
    m.startSlowConnectionTimer =
      { m with
        pending :=
          (match m.slowConnectionTimer with
           | some id => m.pending.filter (fun t => t.id ≠ id)
           | none => m.pending) ++
          [⟨m.nextTimerId, .slowMessage "Finalizing layout...", 15000⟩,
           ⟨m.nextTimerId + 1, .slowMessage "Drafting copy...", 30000⟩,
           ⟨m.nextTimerId + 2, .slowMessage "Finalizing design...", 45000⟩,
           ⟨m.nextTimerId + 3, .slowMessage "Completing setup...", 60000⟩,
           ⟨m.nextTimerId + 4, .slowMessage "Starting project...", 75000⟩,
           ⟨m.nextTimerId + 5, .guard, 75000⟩],
        slowConnectionTimer := some (m.nextTimerId + 5),
        nextTimerId := m.nextTimerId + 6 } := by
  cases h : m.slowConnectionTimer <;>
    simp [CreateManager.startSlowConnectionTimer, setTimeoutOp, clearTimeoutOp,
      SLOW_CREATE_MESSAGES, h]

theorem clearSlowConnectionTimer_eq (m : CreateManager) :
    m.clearSlowConnectionTimer =
      { m with
        pending :=
          (match m.slowConnectionTimer with
           | some id => m.pending.filter (fun t => t.id ≠ id)
           | none => m.pending),
        slowConnectionTimer := none } := by
  cases h : m.slowConnectionTimer with
  | none => cases m; simp_all [CreateManager.clearSlowConnectionTimer]
  | some id => simp [CreateManager.clearSlowConnectionTimer, clearTimeoutOp, h]

theorem setState_createState (m : CreateManager) (s : CreateState) :
    (m.setState s).createState = s := by
  unfold CreateManager.setState
  split <;> simp [startSlowConnectionTimer_eq, clearSlowConnectionTimer_eq]

theorem setState_error (m : CreateManager) (s : CreateState) :
    (m.setState s).error = m.error := by
  unfold CreateManager.setState
  split <;> simp [startSlowConnectionTimer_eq, clearSlowConnectionTimer_eq]

theorem setState_message (m : CreateManager) (s : CreateState) :
    (m.setState s).message = m.message := by
  unfold CreateManager.setState
  split <;> simp [startSlowConnectionTimer_eq, clearSlowConnectionTimer_eq]

theorem setState_progress (m : CreateManager) (s : CreateState) :
    (m.setState s).progress = m.progress := by
  unfold CreateManager.setState
  split <;> simp [startSlowConnectionTimer_eq, clearSlowConnectionTimer_eq]

theorem setState_project (m : CreateManager) (s : CreateState) :
    (m.setState s).project = m.project := by
  unfold CreateManager.setState
  split <;> simp [startSlowConnectionTimer_eq, clearSlowConnectionTimer_eq]

theorem setState_projectsTab (m : CreateManager) (s : CreateState) :
    (m.setState s).projectsTab = m.projectsTab := by
  unfold CreateManager.setState
  split <;> simp [startSlowConnectionTimer_eq, clearSlowConnectionTimer_eq]

theorem setState_subscribed (m : CreateManager) (s : CreateState) :
    (m.setState s).subscribed = m.subscribed := by
  unfold CreateManager.setState
  split <;> simp [startSlowConnectionTimer_eq, clearSlowConnectionTimer_eq]

theorem setState_cleanupListener (m : CreateManager) (s : CreateState) :
    (m.setState s).cleanupListener = m.cleanupListener := by
  unfold CreateManager.setState
  split <;> simp [startSlowConnectionTimer_eq, clearSlowConnectionTimer_eq]

theorem setState_suggestions (m : CreateManager) (s : CreateState) :
    (m.setState s).suggestions = m.suggestions := by
  unfold CreateManager.setState
  split <;> simp [startSlowConnectionTimer_eq, clearSlowConnectionTimer_eq]

theorem sendPromptStart_createState (m : CreateManager) (p : String) (b : Bool) :
    (m.sendPromptStart p b).createState = CreateState.CREATE_LOADING := by
  simp [CreateManager.sendPromptStart, setState_createState]

theorem sendPromptStart_error (m : CreateManager) (p : String) (b : Bool) :
    (m.sendPromptStart p b).error = none := by
  simp [CreateManager.sendPromptStart]

theorem sendPromptStart_message (m : CreateManager) (p : String) (b : Bool) :
    (m.sendPromptStart p b).message = m.message := by
  simp [CreateManager.sendPromptStart, setState_message]

theorem sendPromptStart_progress (m : CreateManager) (p : String) (b : Bool) :
    (m.sendPromptStart p b).progress = m.progress := by
  simp [CreateManager.sendPromptStart, setState_progress]

theorem sendPromptStart_project (m : CreateManager) (p : String) (b : Bool) :
    (m.sendPromptStart p b).project = m.project := by
  simp [CreateManager.sendPromptStart, setState_project]

theorem sendPromptStart_projectsTab (m : CreateManager) (p : String) (b : Bool) :
    (m.sendPromptStart p b).projectsTab = m.projectsTab := by
  simp [CreateManager.sendPromptStart, setState_projectsTab]

theorem sendPromptStart_subscribed (m : CreateManager) (p : String) (b : Bool) :
    (m.sendPromptStart p b).subscribed = m.subscribed := by
  simp [CreateManager.sendPromptStart, setState_subscribed]

theorem sendPromptStart_suggestions (m : CreateManager) (p : String) (b : Bool) :
    (m.sendPromptStart p b).suggestions = m.suggestions := by
  simp [CreateManager.sendPromptStart, setState_suggestions]

theorem sendPromptResume_createState (m : CreateManager) (p : String)
    (i : List ImageMessageContext) (b : Bool) (r : CreateProjectResponse) :
    (m.sendPromptResume p i b r).createState =
      (if r.success && r.pathTruthy then CreateState.PROMPT else CreateState.ERROR) := by
  unfold CreateManager.sendPromptResume
  split
  · split <;> simp [setTimeoutOp, clearSlowConnectionTimer_eq, setState_createState]
  · simp [setState_createState]

theorem sendPromptResume_error (m : CreateManager) (p : String)
    (i : List ImageMessageContext) (b : Bool) (r : CreateProjectResponse) :
    (m.sendPromptResume p i b r).error =
      (if r.success && r.pathTruthy then m.error else some r.errorOrFallback) := by
  unfold CreateManager.sendPromptResume
  split
  · split <;> simp [setTimeoutOp, clearSlowConnectionTimer_eq, setState_error]
  · simp [setState_error]

theorem sendPromptResume_project (m : CreateManager) (p : String)
    (i : List ImageMessageContext) (b : Bool) (r : CreateProjectResponse) :
    (m.sendPromptResume p i b r).project =
      (if r.success && r.pathTruthy then some (CreateManager.createProject r.path)
       else m.project) := by
  unfold CreateManager.sendPromptResume
  split
  · split <;> simp [setTimeoutOp, clearSlowConnectionTimer_eq, setState_project]
  · simp [setState_project]

theorem sendPromptResume_message (m : CreateManager) (p : String)
    (i : List ImageMessageContext) (b : Bool) (r : CreateProjectResponse) :
    (m.sendPromptResume p i b r).message = m.message := by
  unfold CreateManager.sendPromptResume
  split
  · split <;> simp [setTimeoutOp, clearSlowConnectionTimer_eq, setState_message]
  · simp [setState_message]

theorem sendPromptResume_progress (m : CreateManager) (p : String)
    (i : List ImageMessageContext) (b : Bool) (r : CreateProjectResponse) :
    (m.sendPromptResume p i b r).progress = m.progress := by
  unfold CreateManager.sendPromptResume
  split
  · split <;> simp [setTimeoutOp, clearSlowConnectionTimer_eq, setState_progress]
  · simp [setState_progress]

theorem cancel_eq (m : CreateManager) (resp : Option String) :
    m.cancel resp = m.setState CreateState.PROMPT := rfl

theorem cleanup_createState (m : CreateManager) :
    m.cleanup.createState = m.createState := by
  unfold CreateManager.cleanup
  split <;> simp [clearSlowConnectionTimer_eq]

theorem cleanup_error (m : CreateManager) :
    m.cleanup.error = m.error := by
  unfold CreateManager.cleanup
  split <;> simp [clearSlowConnectionTimer_eq]

theorem cleanup_message (m : CreateManager) :
    m.cleanup.message = m.message := by
  unfold CreateManager.cleanup
  split <;> simp [clearSlowConnectionTimer_eq]

theorem cleanup_progress (m : CreateManager) :
    m.cleanup.progress = m.progress := by
  unfold CreateManager.cleanup
  split <;> simp [clearSlowConnectionTimer_eq]

theorem cleanup_cleanupListener (m : CreateManager) :
    m.cleanup.cleanupListener = false := by
  unfold CreateManager.cleanup
  split <;> simp_all [clearSlowConnectionTimer_eq]

theorem cleanup_slowConnectionTimer (m : CreateManager) :
    m.cleanup.slowConnectionTimer = none := by
  unfold CreateManager.cleanup
  split <;> simp [clearSlowConnectionTimer_eq]

theorem deliverPromptProgress_eq (m : CreateManager) (msg : String) (p : Int) :
    m.deliverPromptProgress msg p =
      (if m.subscribed then { m with progress := p, message := some msg } else m) := rfl

theorem fireTimer_createState (m : CreateManager) (id : Nat) :
    (m.fireTimer id).createState = m.createState := by
  unfold CreateManager.fireTimer
  split
  · next t _ =>
    cases t.kind <;> simp [CreateManager.runTimerCallback] <;> split <;> simp
  · rfl

theorem fireTimer_error (m : CreateManager) (id : Nat) :
    (m.fireTimer id).error = m.error := by
  unfold CreateManager.fireTimer
  split
  · next t _ =>
    cases t.kind <;> simp [CreateManager.runTimerCallback] <;> split <;> simp
  · rfl

theorem applyEvent_errorInv (m : CreateManager) (e : Event)
    (hm : ErrorInv m) : ErrorInv (applyEvent m e) := by
  cases e with
  | sendPromptStart p b =>
    intro _
    exact sendPromptStart_error m p b
  | sendPromptResume p i b r =>
    intro h
    rw [applyEvent, sendPromptResume_createState] at h
    rw [applyEvent, sendPromptResume_error]
    split at h <;> simp_all
  | cancel resp =>
    intro h
    rw [applyEvent, cancel_eq, setState_createState] at h
    simp_all
  | cleanup =>
    intro h
    rw [applyEvent, cleanup_createState] at h
    rw [applyEvent, cleanup_error]
    exact hm h
  | progressNotify msg p =>
    intro h
    rw [applyEvent, deliverPromptProgress_eq] at *
    split at h <;> simp_all [ErrorInv]
  | timerFire id =>
    intro h
    rw [applyEvent, fireTimer_createState] at h
    rw [applyEvent, fireTimer_error]
    exact hm h

theorem reachable_errorInv (project0 : Option Project) (tab0 : ProjectTabs)
    (m : CreateManager) (h : Reachable project0 tab0 m) : ErrorInv m := by
  induction h with
  | init =>
    intro h
    simp [CreateManager.initialState, CreateManager.listenForPromptProgress] at h
  | step e _ ih => exact applyEvent_errorInv _ e ih

theorem fireTimer_found (m : CreateManager) (t : TimerEntry)
    (hfind : m.pending.find? (fun x => x.id = t.id) = some t) :
    m.fireTimer t.id =
      CreateManager.runTimerCallback
        { m with pending := m.pending.filter (fun x => x.id ≠ t.id) } t.kind := by
  unfold CreateManager.fireTimer
  rw [hfind]

theorem setState_loading_schedules (m : CreateManager) :
    ∀ e ∈ SLOW_CREATE_MESSAGES,
      ∃ u ∈ (m.setState CreateState.CREATE_LOADING).pending,
        u.kind = TimerKind.slowMessage e.message ∧ u.delay = e.time := by
  intro e he
  have hset : m.setState CreateState.CREATE_LOADING =
      CreateManager.startSlowConnectionTimer
        { m with createState := CreateState.CREATE_LOADING } := by
    simp [CreateManager.setState]
  rw [hset, startSlowConnectionTimer_eq]
  simp only [SLOW_CREATE_MESSAGES, List.mem_cons, List.not_mem_nil, or_false] at he
  rcases he with h | h | h | h | h <;> subst h
  · exact ⟨⟨m.nextTimerId, .slowMessage "Finalizing layout...", 15000⟩, by simp, rfl, rfl⟩
  · exact ⟨⟨m.nextTimerId + 1, .slowMessage "Drafting copy...", 30000⟩, by simp, rfl, rfl⟩
  · exact ⟨⟨m.nextTimerId + 2, .slowMessage "Finalizing design...", 45000⟩, by simp, rfl, rfl⟩
  · exact ⟨⟨m.nextTimerId + 3, .slowMessage "Completing setup...", 60000⟩, by simp, rfl, rfl⟩
  · exact ⟨⟨m.nextTimerId + 4, .slowMessage "Starting project...", 75000⟩, by simp, rfl, rfl⟩

theorem cleanup_of_detached (m : CreateManager)
    (h1 : m.cleanupListener = false) (h2 : m.slowConnectionTimer = none) :
    m.cleanup = m := by
  unfold CreateManager.cleanup CreateManager.clearSlowConnectionTimer
  rw [h1]
  simp [h2]

theorem cleanup_pending (m : CreateManager) :
    m.cleanup.pending =
      (match m.slowConnectionTimer with
       | some id => m.pending.filter (fun t => t.id ≠ id)
       | none => m.pending) := by
  unfold CreateManager.cleanup
  split <;> simp [clearSlowConnectionTimer_eq]

/-! ### Claim theorems -/

/-- C1: for every `sendPrompt(p, imgs, blank)` call whose backend response
has `success = true` and a non-empty `projectPath`, after the call resolves
the state is `PROMPT` and the owning `ProjectsManager`'s active project is a
record with that path, name `New Project`, url `http://localhost:3000`, and
commands `npm install` / `npm run dev` / `npm run build`. -/
theorem C1_sendPrompt_success_installs_project (m : CreateManager)
    (prompt : String) (images : List ImageMessageContext) (blank : Bool)
    (r : CreateProjectResponse) (payload : CreateProjectResponsePayload)
    (hsucc : r.success = true) (hresp : r.response = some payload)
    (hpath : ¬ payload.projectPath.isEmpty) :
    (m.sendPrompt prompt images blank r).createState = CreateState.PROMPT ∧
    (m.sendPrompt prompt images blank r).project =
      some { name := "New Project", url := "http://localhost:3000",
             path := payload.projectPath,
             commands := { install := "npm install", run := "npm run dev",
                           build := "npm run build" } } := by
  have hpt : r.pathTruthy = true := by
    simp [CreateProjectResponse.pathTruthy, hresp]
    simpa using hpath
  have hcond : (r.success && r.pathTruthy) = true := by simp [hsucc, hpt]
  unfold CreateManager.sendPrompt
  rw [sendPromptResume_createState, sendPromptResume_project, hcond]
  simp [CreateProjectResponse.path, hresp, CreateManager.createProject,
    ProjectsManager.createProject]

/-- C1 witness: the concrete successful call of the spec's example. -/
theorem C1_sendPrompt_success_installs_project_witness :
    (exampleManager.sendPrompt "x" [] false exampleSuccessResponse).createState =
      CreateState.PROMPT ∧
    (exampleManager.sendPrompt "x" [] false exampleSuccessResponse).project =
      some { name := "New Project", url := "http://localhost:3000", path := "/p",
             commands := { install := "npm install", run := "npm run dev",
                           build := "npm run build" } } :=
  C1_sendPrompt_success_installs_project exampleManager "x" [] false
    exampleSuccessResponse ⟨"/p", none⟩ rfl rfl (by decide)

/-- C2 counterexample: a failing response whose `error` field is the empty
string.  The claim says the recorded error then equals the response's error
string (the empty string), but the code's `||` fallback records the generic
message instead. -/
theorem C2_counterexample_empty_error_string :
    exampleEmptyErrorResponse.success = false ∧
    exampleEmptyErrorResponse.error = some "" ∧
    (exampleManager.sendPrompt "x" [] false exampleEmptyErrorResponse).createState =
      CreateState.ERROR ∧
    (exampleManager.sendPrompt "x" [] false exampleEmptyErrorResponse).error =
      some "Failed to create project" ∧
    (exampleManager.sendPrompt "x" [] false exampleEmptyErrorResponse).error ≠
      exampleEmptyErrorResponse.error := by
  refine ⟨rfl, rfl, rfl, rfl, by decide⟩

/-- C2 amended: the response is treated as a failure exactly when its
`success` flag is false or its project path is missing/empty; on failure the
state is `ERROR` and `error` equals the response's error string when that
string is present and non-empty, and the generic message
`Failed to create project` when the response provides none or provides the
empty string. -/
theorem C2_amended_failure_handling (m : CreateManager) (prompt : String)
    (images : List ImageMessageContext) (blank : Bool)
    (r : CreateProjectResponse) :
    ((m.sendPrompt prompt images blank r).createState = CreateState.ERROR ↔
      ¬(r.success = true ∧ r.pathTruthy = true)) ∧
    (¬(r.success = true ∧ r.pathTruthy = true) →
      (m.sendPrompt prompt images blank r).error =
        some (match r.error with
              | none => "Failed to create project"
              | some e =>
                if e.isEmpty then "Failed to create project" else e)) := by
  constructor
  · unfold CreateManager.sendPrompt
    rw [sendPromptResume_createState]
    rcases hs : r.success <;> rcases hp : r.pathTruthy <;> simp [hs, hp]
  · intro hfail
    have hcond : (r.success && r.pathTruthy) = false := by
      rcases hs : r.success <;> rcases hp : r.pathTruthy <;> simp_all
    unfold CreateManager.sendPrompt
    rw [sendPromptResume_error, hcond]
    simp [CreateProjectResponse.errorOrFallback]

/-- C2 amended witness: the spec's `disk full` example. -/
theorem C2_amended_failure_handling_witness :
    (exampleManager.sendPrompt "x" [] false exampleFailResponse).createState =
      CreateState.ERROR ∧
    (exampleManager.sendPrompt "x" [] false exampleFailResponse).error =
      some "disk full" := by
  have h := C2_amended_failure_handling exampleManager "x" [] false
    exampleFailResponse
  exact ⟨h.1.mpr (by decide), by simpa using h.2 (by decide)⟩

/-- C3 counterexample: after a failed `sendPrompt` (leaving
`error = some "disk full"`) followed by `cancel()`, the reachable state has
`state = PROMPT` with a non-null `error`, so `error` is not non-null only in
the `ERROR` state. -/
theorem C3_counterexample_cancel_keeps_error :
    Reachable none ProjectTabs.SETTINGS exampleCancelAfterErrorState ∧
    exampleCancelAfterErrorState.createState = CreateState.PROMPT ∧
    exampleCancelAfterErrorState.error = some "disk full" := by
  refine ⟨?_, rfl, rfl⟩
  exact Reachable.step _ (Reachable.step _ (Reachable.step _ Reachable.init))

/-- C3 amended: in every reachable state, `error` is null whenever the state
is `CREATE_LOADING`, and `error` is reset to null at the start of every
`sendPrompt` attempt; however `cancel()` leaves `error` unchanged, so a
non-null `error` can persist into the `PROMPT` state (see the
counterexample). -/
theorem C3_amended_error_invariant (project0 : Option Project)
    (tab0 : ProjectTabs) (m : CreateManager)
    (h : Reachable project0 tab0 m) :
    (m.createState = CreateState.CREATE_LOADING → m.error = none) ∧
    (∀ (prompt : String) (blank : Bool),
      (m.sendPromptStart prompt blank).error = none) :=
  ⟨reachable_errorInv project0 tab0 m h,
   fun prompt blank => sendPromptStart_error m prompt blank⟩

/-- C3 amended witness: the invariant instantiated at the concrete loading
state reached by one `sendPromptStart`. -/
theorem C3_amended_error_invariant_witness :
    exampleLoadingState.error = none ∧
    (exampleLoadingState.sendPromptStart "y" true).error = none := by
  have h := C3_amended_error_invariant none ProjectTabs.SETTINGS
    exampleLoadingState (Reachable.step _ Reachable.init)
  exact ⟨h.1 rfl, h.2 "y" true⟩

/-- C4: a scheduled slow-message timer callback that fires after the state
has left `CREATE_LOADING` changes neither `message` nor `progress`; while
the state is still `CREATE_LOADING` at fire time it overwrites `message`
with its canned string and increments `progress` by exactly 10; and
entering `CREATE_LOADING` schedules one such callback for each of the five
canned messages at 15s, 30s, 45s, 60s and 75s. -/
theorem C4_slow_timer_self_guard (m : CreateManager) (t : TimerEntry)
    (msg : String)
    (hfind : m.pending.find? (fun x => x.id = t.id) = some t)
    (hkind : t.kind = TimerKind.slowMessage msg) :
    (m.createState ≠ CreateState.CREATE_LOADING →
      (m.fireTimer t.id).message = m.message ∧
      (m.fireTimer t.id).progress = m.progress) ∧
    (m.createState = CreateState.CREATE_LOADING →
      (m.fireTimer t.id).message = some msg ∧
      (m.fireTimer t.id).progress = m.progress + 10) ∧
    (∀ e ∈ SLOW_CREATE_MESSAGES,
      ∃ u ∈ (m.setState CreateState.CREATE_LOADING).pending,
        u.kind = TimerKind.slowMessage e.message ∧ u.delay = e.time) := by
  refine ⟨?_, ?_, setState_loading_schedules m⟩
  · intro hne
    rw [fireTimer_found m t hfind, hkind]
    simp [CreateManager.runTimerCallback, hne]
  · intro heq
    rw [fireTimer_found m t hfind, hkind]
    simp [CreateManager.runTimerCallback, heq]

/-- C4 witness: firing the 15s callback while still in `CREATE_LOADING`. -/
theorem C4_slow_timer_self_guard_witness :
    (exampleLoadingState.fireTimer 0).message = some "Finalizing layout..." ∧
    (exampleLoadingState.fireTimer 0).progress =
      exampleLoadingState.progress + 10 := by
  have h := C4_slow_timer_self_guard exampleLoadingState
    ⟨0, TimerKind.slowMessage "Finalizing layout...", 15000⟩
    "Finalizing layout..." (by decide) rfl
  exact h.2.1 rfl

/-- C5: a `cancel()` call made while the state is `CREATE_LOADING` leaves
the state at `PROMPT` afterwards, and its result does not depend on the
backend's response to the cancellation request (so it never reports a
backend failure to its caller). -/
theorem C5_cancel_always_returns_to_prompt (m : CreateManager)
    (resp resp2 : Option String)
    (_h : m.createState = CreateState.CREATE_LOADING) :
    (m.cancel resp).createState = CreateState.PROMPT ∧
    m.cancel resp = m.cancel resp2 := by
  refine ⟨?_, rfl⟩
  rw [cancel_eq, setState_createState]

/-- C5 witness: cancelling the concrete loading state, comparing a silent
backend with a failing one. -/
theorem C5_cancel_always_returns_to_prompt_witness :
    (exampleLoadingState.cancel none).createState = CreateState.PROMPT ∧
    exampleLoadingState.cancel none =
      exampleLoadingState.cancel (some "backend failure") :=
  C5_cancel_always_returns_to_prompt exampleLoadingState none
    (some "backend failure") rfl

/-- C6 counterexample: after entering `CREATE_LOADING` and then calling
`cleanup()` twice, the subscription handle and guard timer are gone, but
the five already-scheduled slow-message callbacks are still pending — so
cleanup does not leave "no scheduled timer of the CreateManager pending". -/
theorem C6_counterexample_timers_survive_cleanup :
    exampleCleanupTwiceState.cleanupListener = false ∧
    exampleCleanupTwiceState.slowConnectionTimer = none ∧
    exampleCleanupTwiceState.pending.map (fun t => t.kind) =
      [TimerKind.slowMessage "Finalizing layout...",
       TimerKind.slowMessage "Drafting copy...",
       TimerKind.slowMessage "Finalizing design...",
       TimerKind.slowMessage "Completing setup...",
       TimerKind.slowMessage "Starting project..."] :=
  ⟨rfl, rfl, rfl⟩

/-- C6 amended: calling `cleanup()` twice in succession does not throw (it
is a total function) and is idempotent; it detaches the progress
subscription and clears the guard timer, but the individually scheduled
slow-message callbacks (and any tab-switch / dev-server delays) are not
cancelled and remain pending. -/
theorem C6_amended_cleanup_idempotent (m : CreateManager)
    (hsync : m.subscribed = true → m.cleanupListener = true) :
    m.cleanup.cleanup = m.cleanup ∧
    m.cleanup.cleanupListener = false ∧
    m.cleanup.subscribed = false ∧
    m.cleanup.slowConnectionTimer = none ∧
    m.cleanup.pending =
      (match m.slowConnectionTimer with
       | some id => m.pending.filter (fun t => t.id ≠ id)
       | none => m.pending) := by
  refine ⟨cleanup_of_detached _ (cleanup_cleanupListener m)
    (cleanup_slowConnectionTimer m), cleanup_cleanupListener m, ?_,
    cleanup_slowConnectionTimer m, cleanup_pending m⟩
  unfold CreateManager.cleanup
  cases hcl : m.cleanupListener with
  | false =>
    have hsub : m.subscribed = false := by
      cases hs : m.subscribed with
      | false => rfl
      | true => exact absurd (hsync hs) (by simp [hcl])
    simp [clearSlowConnectionTimer_eq, hsub]
  | true => simp [clearSlowConnectionTimer_eq]

/-- C6 amended witness: double cleanup of the concrete loading state (where
both a listener and timers are attached). -/
theorem C6_amended_cleanup_idempotent_witness :
    exampleLoadingState.cleanup.cleanup = exampleLoadingState.cleanup ∧
    exampleLoadingState.cleanup.subscribed = false ∧
    exampleLoadingState.cleanup.slowConnectionTimer = none := by
  have h := C6_amended_cleanup_idempotent exampleLoadingState (fun _ => rfl)
  exact ⟨h.1, h.2.2.1, h.2.2.2.1⟩

/-- C7: a progress notification delivered on the prompt-progress channel
(while the constructor-installed listener is attached) overwrites `message`
and `progress` immediately, in any state and with no state check. -/
theorem C7_progress_notification_unconditional (m : CreateManager)
    (msg : String) (p : Int) (hsub : m.subscribed = true) :
    (m.deliverPromptProgress msg p).message = some msg ∧
    (m.deliverPromptProgress msg p).progress = p ∧
    (m.deliverPromptProgress msg p).createState = m.createState ∧
    (m.deliverPromptProgress msg p).error = m.error := by
  simp [deliverPromptProgress_eq, hsub]

/-- C7 witness: the spec's `{message: "m", progress: 42}` notification
hitting a fresh manager. -/
theorem C7_progress_notification_unconditional_witness :
    (exampleManager.deliverPromptProgress "m" 42).message = some "m" ∧
    (exampleManager.deliverPromptProgress "m" 42).progress = 42 ∧
    (exampleManager.deliverPromptProgress "m" 42).createState =
      exampleManager.createState ∧
    (exampleManager.deliverPromptProgress "m" 42).error = exampleManager.error :=
  C7_progress_notification_unconditional exampleManager "m" 42 rfl

/-- C8: the part of `sendPrompt` before the backend request writes only
`state` (to `CREATE_LOADING`) and `error` (to null); `progress`, `message`,
and the owner's project/tab fields keep whatever values previous attempts,
timers, or notifications left in them. -/
theorem C8_sendPromptStart_frame (m : CreateManager) (prompt : String)
    (blank : Bool) :
    (m.sendPromptStart prompt blank).createState = CreateState.CREATE_LOADING ∧
    (m.sendPromptStart prompt blank).error = none ∧
    (m.sendPromptStart prompt blank).progress = m.progress ∧
    (m.sendPromptStart prompt blank).message = m.message ∧
    (m.sendPromptStart prompt blank).project = m.project ∧
    (m.sendPromptStart prompt blank).projectsTab = m.projectsTab ∧
    (m.sendPromptStart prompt blank).subscribed = m.subscribed ∧
    (m.sendPromptStart prompt blank).suggestions = m.suggestions :=
  ⟨sendPromptStart_createState m prompt blank,
   sendPromptStart_error m prompt blank,
   sendPromptStart_progress m prompt blank,
   sendPromptStart_message m prompt blank,
   sendPromptStart_project m prompt blank,
   sendPromptStart_projectsTab m prompt blank,
   sendPromptStart_subscribed m prompt blank,
   sendPromptStart_suggestions m prompt blank⟩

theorem setState_analytics (m : CreateManager) (s : CreateState) :
    (m.setState s).analytics = m.analytics := by
  unfold CreateManager.setState
  split <;> simp [startSlowConnectionTimer_eq, clearSlowConnectionTimer_eq]

/-- C9: `cancel()` mutates only the `state` field (and the internal timer
bookkeeping): `error`, `message`, `progress`, the owner's project/tab, the
subscription, the suggestions, and the analytics log are left unchanged —
so in particular cancelling from the `ERROR` state yields `PROMPT` with
`error` still non-null. -/
theorem C9_cancel_frame (m : CreateManager) (resp : Option String) :
    (m.cancel resp).createState = CreateState.PROMPT ∧
    (m.cancel resp).error = m.error ∧
    (m.cancel resp).message = m.message ∧
    (m.cancel resp).progress = m.progress ∧
    (m.cancel resp).project = m.project ∧
    (m.cancel resp).projectsTab = m.projectsTab ∧
    (m.cancel resp).subscribed = m.subscribed ∧
    (m.cancel resp).cleanupListener = m.cleanupListener ∧
    (m.cancel resp).suggestions = m.suggestions ∧
    (m.cancel resp).analytics = m.analytics := by
  rw [cancel_eq]
  exact ⟨setState_createState m _, setState_error m _, setState_message m _,
    setState_progress m _, setState_project m _, setState_projectsTab m _,
    setState_subscribed m _, setState_cleanupListener m _,
    setState_suggestions m _, setState_analytics m _⟩

/-- C10: a failing response whose `error` field is the empty string records
the generic fallback `Failed to create project`, not the empty string,
because the `||` fallback triggers on any falsy error value. -/
theorem C10_empty_error_falls_back (m : CreateManager) (prompt : String)
    (images : List ImageMessageContext) (blank : Bool)
    (r : CreateProjectResponse)
    (hfail : ¬(r.success = true ∧ r.pathTruthy = true))
    (herr : r.error = some "") :
    (m.sendPrompt prompt images blank r).error =
      some "Failed to create project" ∧
    (m.sendPrompt prompt images blank r).error ≠ some "" := by
  have hcond : (r.success && r.pathTruthy) = false := by
    rcases hs : r.success <;> rcases hp : r.pathTruthy <;> simp_all
  unfold CreateManager.sendPrompt
  rw [sendPromptResume_error, hcond]
  constructor
  · simp [CreateProjectResponse.errorOrFallback, herr]
    decide
  · simp [CreateProjectResponse.errorOrFallback, herr]
    decide

/-- C10 witness: the concrete empty-error-string failure. -/
theorem C10_empty_error_falls_back_witness :
    (exampleManager.sendPrompt "x" [] false exampleEmptyErrorResponse).error =
      some "Failed to create project" ∧
    (exampleManager.sendPrompt "x" [] false exampleEmptyErrorResponse).error ≠
      some "" :=
  C10_empty_error_falls_back exampleManager "x" [] false
    exampleEmptyErrorResponse (by decide) rfl
